import Mathlib

/-!
Shallow embedding of `parse.py` (AppleHealthXMLtoCSV): a GPX route metrics
extractor and a statistics aggregator over the produced CSV.

Python floats are modelled as exact rationals (`ℚ`); the external geodesic
distance function from geopy (`geopy.distance.distance(p, q).<units>`) is an
explicit parameter `geo : Geo` taking the unit name and two projected
(latitude, longitude) pairs, since the library is an external collaborator.
-/

namespace Parse

/-- A parsed GPX track point (`gpxpy.gpx.GPXTrackPoint`): latitude and
longitude in degrees, optional elevation in meters. -/
structure GPXTrackPoint where
  latitude : ℚ
  longitude : ℚ
  elevation : Option ℚ
  deriving DecidableEq, Repr

instance : Inhabited GPXTrackPoint := ⟨⟨0, 0, none⟩⟩

/-- The external geodesic distance collaborator: given a unit name and two
(latitude, longitude) pairs, returns the distance in that unit
(`getattr(geopy.distance.distance(p, q), units)`). -/
def Geo : Type := String → ℚ × ℚ → ℚ × ℚ → ℚ

/-- `distance_units = "meters"` — the module-level configured unit name. -/
def distance_units : String := "meters"

/-- `point_gpx_to_geopy`: project a GPX point to the (latitude, longitude)
pair consumed by geopy; elevation is dropped. -/
def point_gpx_to_geopy (gpx_point : GPXTrackPoint) : ℚ × ℚ :=
  (gpx_point.latitude, gpx_point.longitude)

/-- `get_geopy_distance`: geodesic distance between two GPX points in the
given unit, via projection of each point to (latitude, longitude). -/
def get_geopy_distance (geo : Geo) (gpx_point_one gpx_point_two : GPXTrackPoint)
    (units : String := distance_units) : ℚ :=
  geo units (point_gpx_to_geopy gpx_point_one) (point_gpx_to_geopy gpx_point_two)

/-- The loop body of `geopy_sequence_distance`: `previous_point` starts as
`None`, the first point only seeds it, and each later point adds the pairwise
distance from the previous point. -/
def geopy_sequence_loop (geo : Geo) (units : String) :
    Option GPXTrackPoint → ℚ → List GPXTrackPoint → ℚ
  | _, total_distance, [] => total_distance
  | none, total_distance, point :: rest =>
      geopy_sequence_loop geo units (some point) total_distance rest
  | some previous_point, total_distance, point :: rest =>
      geopy_sequence_loop geo units (some point)
        (total_distance + get_geopy_distance geo previous_point point units) rest

/-- `geopy_sequence_distance`: total geodesic distance along a point list,
accumulated pairwise over consecutive points. -/
def geopy_sequence_distance (geo : Geo) (gpx_points : List GPXTrackPoint)
    (units : String := distance_units) : ℚ :=
  geopy_sequence_loop geo units none 0 gpx_points

/-- A parsed GPX segment: its ordered point list, plus the 2D/3D path lengths
computed by the external gpxpy accessors `segment.length_2d()` /
`segment.length_3d()`, which the extractor consumes but does not compute. -/
structure GPXSegment where
  points : List GPXTrackPoint
  length_2d : ℚ
  length_3d : ℚ
  deriving DecidableEq, Repr

/-- A parsed GPX track: `track.name` (possibly `None`) and its segments. -/
structure GPXTrack where
  name : Option String
  segments : List GPXSegment
  deriving DecidableEq, Repr

/-- A parsed GPX file (`gpxpy.parse(...)`): its tracks. -/
structure GPXFile where
  tracks : List GPXTrack
  deriving DecidableEq, Repr

/-- The closing-distance expression of `generate_csv`:
`get_geopy_distance(segment.points[0], segment.points[-1]) if
len(segment.points) > 0 else 0`. -/
def closing_distance (geo : Geo) (points : List GPXTrackPoint)
    (units : String := distance_units) : ℚ :=
  if 0 < points.length then
    get_geopy_distance geo points.headI points.getLastI units
  else 0

/-- One output row of the extractor, with the eight `fieldnames` columns. -/
structure RowData where
  trackName : Option String
  segment : Nat
  points : Nat
  geopyDistance : ℚ
  geopyClosingDistance : ℚ
  gpx2dDistance : ℚ
  gpx3dDistance : ℚ
  gpx3dMinusGeopy : ℚ
  deriving DecidableEq, Repr

/-- The `row_data` construction in `generate_csv`: the dict is first built
with seven entries, then `row_data["GPX 3d - GeoPy"]` is set from the
already-stored `"GPX 3d distance"` and `"GeoPy distance"` entries of the same
dict (the `0` below stands for the key being absent before that assignment). -/
def build_row (geo : Geo) (track_name : Option String) (segment_number : Nat)
    (segment : GPXSegment) (units : String := distance_units) : RowData :=
  let row_data : RowData :=
    { trackName := track_name
      segment := segment_number
      points := segment.points.length
      geopyDistance := geopy_sequence_distance geo segment.points units
      geopyClosingDistance := closing_distance geo segment.points units
      gpx2dDistance := segment.length_2d
      gpx3dDistance := segment.length_3d
      gpx3dMinusGeopy := 0 }
  { row_data with gpx3dMinusGeopy := row_data.gpx3dDistance - row_data.geopyDistance }

/-- The row stream of `generate_csv`: files in directory order, tracks per
file, segments per track with `enumerate(..., start=1)`. -/
def generate_rows (geo : Geo) (files : List GPXFile)
    (units : String := distance_units) : List RowData :=
  files.flatMap fun gpx =>
    gpx.tracks.flatMap fun track =>
      (List.enumFrom 1 track.segments).map fun p =>
        build_row geo track.name p.1 p.2 units

/-- A Python value as handed to the csv writer. -/
inductive PyVal where
  | pynone
  | pystr (s : String)
  | pyint (n : Nat)
  | pyfloat (q : ℚ)
  deriving DecidableEq, Repr

/-- The module-level `fieldnames` tuple: the eight CSV columns, in order. -/
def fieldnames : List String :=
  ["Track name", "Segment", "Points", "GeoPy distance", "GeoPy closing distance",
   "GPX 2d distance", "GPX 3d distance", "GPX 3d - GeoPy"]

/-- `restval="??"` passed to `DictWriter`: the value written for a fieldname
that is missing from the row dict. -/
def restval : PyVal := .pystr "??"

/-- The row dict handed to `DictWriter.writerow`, keyed exactly as in
`generate_csv`; an unnamed track stores Python `None` under `"Track name"`. -/
def row_dict (r : RowData) : List (String × PyVal) :=
  [("Track name", match r.trackName with | none => .pynone | some s => .pystr s),
   ("Segment", .pyint r.segment),
   ("Points", .pyint r.points),
   ("GeoPy distance", .pyfloat r.geopyDistance),
   ("GeoPy closing distance", .pyfloat r.geopyClosingDistance),
   ("GPX 2d distance", .pyfloat r.gpx2dDistance),
   ("GPX 3d distance", .pyfloat r.gpx3dDistance),
   ("GPX 3d - GeoPy", .pyfloat r.gpx3dMinusGeopy)]

/-- `csv.DictWriter._dict_to_list`: for each fieldname, `rowdict.get(key,
restval)` — the stored value when the key is present, `restval` otherwise. -/
def dict_to_list (rowdict : List (String × PyVal)) : List PyVal :=
  fieldnames.map fun key =>
    ((rowdict.find? fun kv => kv.1 == key).map Prod.snd).getD restval

/-- The csv writer's rendering of one Python value into a cell: `None` is
written as the empty string, strings as-is, numbers via `str` (the exact
float digit rendering is irrelevant to every property proved below). -/
def render_cell : PyVal → String
  | .pynone => ""
  | .pystr s => s
  | .pyint n => toString n
  | .pyfloat q => toString q

/-- One physical CSV line for a row: `writerow` = `_dict_to_list` then
per-cell rendering. -/
def write_row (r : RowData) : List String :=
  (dict_to_list (row_dict r)).map render_cell

/-- `open(output_filename, "w", newline="")`: mode `"w"` truncates the file,
so whatever the store held before the run is discarded. -/
def open_w (prior : List (List String)) : List (List String) :=
  match prior with
  | _ => []

/-- `generate_csv`: open the output in `"w"` mode (truncating any prior
contents), write the header row, then one row per segment in
file-track-segment traversal order. -/
def generate_csv (geo : Geo) (prior : List (List String)) (files : List GPXFile)
    (units : String := distance_units) : List (List String) :=
  open_w prior ++ fieldnames :: (generate_rows geo files units).map write_row

/-- The module-import error: `raise ValueError(f"Unknown distance units: ...")`. -/
inductive ModuleError where
  | unknownDistanceUnits (units : String)
  deriving DecidableEq, Repr

/-- The module-level pre-flight check
`if not hasattr(geopy.distance.distance, distance_units): raise ValueError(...)`;
`supported` is the set of unit attribute names on geopy's distance class. -/
def check_units (supported : List String) (units : String) : Except ModuleError Unit :=
  if supported.contains units then .ok () else .error (.unknownDistanceUnits units)

/-- Module initialisation followed by extraction: the unit check runs when
the module loads, before any route file is opened or any record is built. -/
def run_extractor (supported : List String) (units : String) (geo : Geo)
    (prior : List (List String)) (files : List GPXFile) :
    Except ModuleError (List (List String)) := do
  check_units supported units
  return generate_csv geo prior files units

/-- The error outcomes of `display_stats`, one constructor per distinct
Python exception site: `statistics.StatisticsError` from `mean` on no data,
`statistics.StatisticsError` from `stdev` on fewer than two data points,
`ValueError` from `float()` on an unparseable cell (tagged with the field
being parsed), and `ValueError` from `min()`/`max()` on an empty sequence. -/
inductive StatsError where
  | emptyInput
  | insufficientData
  | dataIntegrity (field : String)
  | emptySequence
  deriving DecidableEq, Repr

/-- `statistics.mean`: raises on an empty input, otherwise the arithmetic
mean. -/
def stats_mean (data : List ℚ) : Except StatsError ℚ :=
  if data.length = 0 then .error .emptyInput
  else .ok (data.sum / data.length)

/-- Python `min` over a tuple: raises `ValueError` on an empty sequence. -/
def py_min (data : List ℚ) : Except StatsError ℚ :=
  match data with
  | [] => .error .emptySequence
  | x :: xs => .ok (xs.foldl min x)

/-- Python `max` over a tuple: raises `ValueError` on an empty sequence. -/
def py_max (data : List ℚ) : Except StatsError ℚ :=
  match data with
  | [] => .error .emptySequence
  | x :: xs => .ok (xs.foldl max x)

/-- The sample variance computed inside `statistics.stdev` (denominator
`n − 1`): raises `statistics.StatisticsError` on fewer than two data points. -/
def stats_variance (data : List ℚ) : Except StatsError ℚ :=
  if data.length < 2 then .error .insufficientData
  else
    let m := data.sum / data.length
    .ok ((data.map fun x => (x - m) ^ 2).sum / ((data.length : ℚ) - 1))

/-- The value `statistics.stdev` returns: the square root of the sample
variance. The irrational square root is carried symbolically as its exact
radicand (no property below inspects the value, only the error behaviour). -/
structure SqrtVal where
  radicand : ℚ
  deriving DecidableEq, Repr

/-- `statistics.stdev`: sample standard deviation, `√(sample variance)`;
fails exactly when the variance computation does (fewer than two points). -/
def stats_stdev (data : List ℚ) : Except StatsError SqrtVal :=
  (stats_variance data).map SqrtVal.mk

/-- One record as read back by `DictReader`: `display_stats` consults only
the `"GeoPy distance"` and `"GPX 3d - GeoPy"` cells, both as raw text. -/
structure CSVRow where
  geoPyDistanceCell : String
  gpx3dMinusGeoPyCell : String
  deriving DecidableEq, Repr

/-- The printed summary held in memory by `display_stats`. -/
structure StatsSummary where
  averageTripLength : ℚ
  deltaMin : ℚ
  deltaMean : ℚ
  deltaMax : ℚ
  deltaStdev : SqrtVal
  deriving DecidableEq, Repr

/-- `float(x[field])`: the Python float builtin is an external collaborator,
modelled as a parameter `pyfloat` returning `none` exactly when `float`
raises `ValueError`; the error is tagged with the field being parsed. -/
def parse_field (pyfloat : String → Option ℚ) (field cell : String) :
    Except StatsError ℚ :=
  match pyfloat cell with
  | some v => .ok v
  | none => .error (.dataIntegrity field)

/-- `display_stats`: parse every row's `"GeoPy distance"` into
`route_distances`, every row's `"GPX 3d - GeoPy"` into `deltas` (both tuples
built eagerly, so any parse failure aborts before any statistic is printed),
then evaluate `mean(route_distances)`, and `min`, `mean`, `max`, `stdev` of
`deltas` in the order the f-strings evaluate them. -/
def display_stats (pyfloat : String → Option ℚ) (results : List CSVRow) :
    Except StatsError StatsSummary := do
  let route_distances ← results.mapM fun x =>
    parse_field pyfloat "GeoPy distance" x.geoPyDistanceCell
  let deltas ← results.mapM fun x =>
    parse_field pyfloat "GPX 3d - GeoPy" x.gpx3dMinusGeoPyCell
  let average_trip_length ← stats_mean route_distances
  let delta_min ← py_min deltas
  let delta_mean ← stats_mean deltas
  let delta_max ← py_max deltas
  let delta_stdev ← stats_stdev deltas
  return ⟨average_trip_length, delta_min, delta_mean, delta_max, delta_stdev⟩

/-- The spec's description of the cumulative distance: the sum, in recorded
order, of the pairwise geodesic distance between each consecutive pair of
points, computed from latitude/longitude only. -/
def spec_cumulative_distance (geo : Geo) (points : List GPXTrackPoint)
    (units : String := distance_units) : ℚ :=
  ((points.zip points.tail).map fun pq =>
    geo units (point_gpx_to_geopy pq.1) (point_gpx_to_geopy pq.2)).sum

/-- Bookkeeping form of the consecutive-pair sum, over already-projected
(latitude, longitude) pairs; used to relate the accumulation loop, the
spec-side description, and sequence reversal. -/
def pair_sum (geo : Geo) (units : String) : List (ℚ × ℚ) → ℚ
  | [] => 0
  | [_] => 0
  | a :: b :: rest => geo units a b + pair_sum geo units (b :: rest)

/-- A trivial stand-in distance collaborator for concrete evaluations. -/
def geo0 : Geo := fun _ _ _ => 0

/-- A symmetric toy distance on coordinate pairs (taxicab metric): symmetric
and zero on the diagonal, standing in for a geodesic implementation in
concrete evaluations. -/
def geoTaxi : Geo := fun _ a b => |a.1 - b.1| + |a.2 - b.2|

/-- Concrete sample points, segments, tracks and rows for evaluations. -/
def pt1 : GPXTrackPoint := ⟨1, 2, none⟩

def pt2 : GPXTrackPoint := ⟨3, 5, some 10⟩

def pt3 : GPXTrackPoint := ⟨-2, 4, none⟩

def seg0 : GPXSegment := ⟨[], 0, 0⟩

def seg1 : GPXSegment := ⟨[pt1, pt2, pt3], 7, 9⟩

def track1 : GPXTrack := ⟨some "Morning walk", [seg0, seg1]⟩

def track2 : GPXTrack := ⟨none, [seg1]⟩

def file1 : GPXFile := ⟨[track1, track2]⟩

def row0 : RowData := build_row geo0 none 1 seg0

/-- A stand-in for the `float` builtin in concrete evaluations: parses the
single literal `"1.0"`, rejects everything else. -/
def pyfloat0 : String → Option ℚ := fun s => if s = "1.0" then some 1 else none

def csvrow0 : CSVRow := ⟨"1.0", "1.0"⟩

def csvrowBad : CSVRow := ⟨"??", "1.0"⟩

/-- A stand-in for the unit attribute names of geopy's distance class in
concrete evaluations. -/
def supported0 : List String :=
  ["kilometers", "km", "meters", "m", "miles", "mi", "nautical", "nm", "feet", "ft"]

/-! Helper lemmas relating the accumulation loop of
`geopy_sequence_distance` to the consecutive-pair sum. -/

theorem geopy_sequence_loop_some (geo : Geo) (units : String)
    (rest : List GPXTrackPoint) : ∀ (prev : GPXTrackPoint) (total : ℚ),
    geopy_sequence_loop geo units (some prev) total rest
      = total + pair_sum geo units
          (point_gpx_to_geopy prev :: rest.map point_gpx_to_geopy) := by
  induction rest with
  | nil => intro prev total; simp [geopy_sequence_loop, pair_sum]
  | cons p rest ih =>
      intro prev total
      simp only [geopy_sequence_loop, List.map_cons]
      rw [ih]
      simp only [pair_sum, get_geopy_distance]
      ring

theorem geopy_sequence_eq_pair_sum (geo : Geo) (units : String)
    (points : List GPXTrackPoint) :
    geopy_sequence_distance geo points units
      = pair_sum geo units (points.map point_gpx_to_geopy) := by
  cases points with
  | nil => simp [geopy_sequence_distance, geopy_sequence_loop, pair_sum]
  | cons p rest =>
      simp only [geopy_sequence_distance, geopy_sequence_loop, List.map_cons]
      rw [geopy_sequence_loop_some]
      simp

theorem pair_sum_eq_zip_sum (geo : Geo) (units : String) (l : List (ℚ × ℚ)) :
    pair_sum geo units l
      = ((l.zip l.tail).map fun pq => geo units pq.1 pq.2).sum := by
  induction l with
  | nil => simp [pair_sum]
  | cons a t ih =>
      cases t with
      | nil => simp [pair_sum]
      | cons b t' =>
          simp only [pair_sum, List.tail_cons, List.zip_cons_cons, List.map_cons,
            List.sum_cons] at ih ⊢
          rw [ih]

theorem spec_cumulative_eq_pair_sum (geo : Geo) (units : String)
    (points : List GPXTrackPoint) :
    spec_cumulative_distance geo points units
      = pair_sum geo units (points.map point_gpx_to_geopy) := by
  rw [pair_sum_eq_zip_sum, spec_cumulative_distance]
  rw [← List.map_tail, List.zip_map]
  simp [List.map_map, Function.comp_def, Prod.map]

/-- C1: every row emitted by the extractor has its "GPX 3d - GeoPy" field
equal to its "GPX 3d distance" field minus its "GeoPy distance" field, read
from that same row's already-computed fields. -/
theorem row_delta_eq_row_fields (geo : Geo) (files : List GPXFile)
    (units : String) (row : RowData)
    (hrow : row ∈ generate_rows geo files units) :
    row.gpx3dMinusGeopy = row.gpx3dDistance - row.geopyDistance := by
  simp only [generate_rows, List.mem_flatMap, List.mem_map] at hrow
  obtain ⟨gpx, -, track, -, p, -, rfl⟩ := hrow
  rfl

/-- C1 witness: the delta/field identity holds on a concrete row of a
concrete run. -/
theorem row_delta_eq_row_fields_witness :
    (build_row geo0 (some "Morning walk") 2 seg1 distance_units).gpx3dMinusGeopy
      = (build_row geo0 (some "Morning walk") 2 seg1 distance_units).gpx3dDistance
        - (build_row geo0 (some "Morning walk") 2 seg1 distance_units).geopyDistance :=
  row_delta_eq_row_fields geo0 [file1] distance_units _ (by
    simp only [generate_rows, file1, track1, track2, List.flatMap_cons,
      List.flatMap_nil, List.enumFrom, List.map_cons, List.map_nil]
    simp)

/-- C2: the cumulative geodesic distance of a segment equals the sum, in
recorded order, of the pairwise geodesic distances between consecutive
points; it is 0 for 0 or 1 points; and it depends only on the
latitude/longitude projection of the points (elevation is ignored). -/
theorem cumulative_distance_correct (geo : Geo) (units : String)
    (points : List GPXTrackPoint) :
    geopy_sequence_distance geo points units
        = spec_cumulative_distance geo points units
    ∧ (points.length ≤ 1 → geopy_sequence_distance geo points units = 0)
    ∧ ∀ points' : List GPXTrackPoint,
        points.map point_gpx_to_geopy = points'.map point_gpx_to_geopy →
        geopy_sequence_distance geo points units
          = geopy_sequence_distance geo points' units := by
  refine ⟨?_, ?_, ?_⟩
  · rw [geopy_sequence_eq_pair_sum, spec_cumulative_eq_pair_sum]
  · intro hlen
    match points, hlen with
    | [], _ => rfl
    | [p], _ => rfl
  · intro points' hproj
    rw [geopy_sequence_eq_pair_sum, geopy_sequence_eq_pair_sum, hproj]

/-- C2 witness: concrete evaluation of the three conjuncts, in particular
that a point list differing only in elevation yields the same distance. -/
theorem cumulative_distance_correct_witness :
    geopy_sequence_distance geoTaxi [pt2] distance_units = 0
    ∧ geopy_sequence_distance geoTaxi [pt1, pt2, pt3] distance_units
        = geopy_sequence_distance geoTaxi [pt1, ⟨3, 5, none⟩, pt3] distance_units :=
  ⟨(cumulative_distance_correct geoTaxi distance_units [pt2]).2.1 (by decide),
   (cumulative_distance_correct geoTaxi distance_units [pt1, pt2, pt3]).2.2
     [pt1, ⟨3, 5, none⟩, pt3] (by decide)⟩

/-! Helper lemmas: `headI`/`getLastI` across reversal, symmetry facts about
the sample taxicab distance, and reversal of the consecutive-pair sum. -/

theorem headI_eq_iget (l : List GPXTrackPoint) : l.headI = l.head?.iget := by
  cases l <;> rfl

theorem headI_reverse (l : List GPXTrackPoint) : l.reverse.headI = l.getLastI := by
  rw [headI_eq_iget, List.head?_reverse, List.getLastI_eq_getLast?]

theorem getLastI_reverse (l : List GPXTrackPoint) :
    l.reverse.getLastI = l.headI := by
  rw [List.getLastI_eq_getLast?, List.getLast?_reverse, headI_eq_iget]

theorem geoTaxi_symm (units : String) (a b : ℚ × ℚ) :
    geoTaxi units a b = geoTaxi units b a := by
  simp only [geoTaxi]
  rw [abs_sub_comm a.1 b.1, abs_sub_comm a.2 b.2]

theorem geoTaxi_refl (units : String) (a : ℚ × ℚ) : geoTaxi units a a = 0 := by
  simp [geoTaxi]

theorem pair_sum_concat (geo : Geo) (units : String) (l : List (ℚ × ℚ))
    (x : ℚ × ℚ) :
    pair_sum geo units (l ++ [x])
      = pair_sum geo units l + (l.getLast?.elim 0 fun y => geo units y x) := by
  induction l with
  | nil => simp [pair_sum]
  | cons a t ih =>
      cases t with
      | nil => simp [pair_sum]
      | cons b t' =>
          simp only [List.cons_append, pair_sum, List.append_eq] at ih ⊢
          rw [ih, List.getLast?_cons_cons]
          ring

theorem pair_sum_cons_head (geo : Geo) (units : String) (a : ℚ × ℚ)
    (l : List (ℚ × ℚ)) :
    pair_sum geo units (a :: l)
      = (l.head?.elim 0 fun b => geo units a b) + pair_sum geo units l := by
  cases l <;> simp [pair_sum]

theorem pair_sum_reverse (geo : Geo) (units : String)
    (hsym : ∀ a b : ℚ × ℚ, geo units a b = geo units b a) (l : List (ℚ × ℚ)) :
    pair_sum geo units l.reverse = pair_sum geo units l := by
  induction l with
  | nil => rfl
  | cons a t ih =>
      rw [List.reverse_cons, pair_sum_concat, ih, pair_sum_cons_head,
        List.getLast?_reverse]
      cases h : t.head? with
      | none => simp
      | some b => simp only [Option.elim]; rw [hsym b a]; ring

/-- C3: the closing distance is the geodesic distance between the segment's
first and last point; for a segment with fewer than 2 points it is 0 (a
defined value, not an error), given that the geodesic distance from a
coordinate pair to itself is 0. -/
theorem closing_distance_correct (geo : Geo) (units : String)
    (hzero : ∀ a : ℚ × ℚ, geo units a a = 0) (points : List GPXTrackPoint) :
    (points.length < 2 → closing_distance geo points units = 0)
    ∧ ∀ h : points ≠ [],
        closing_distance geo points units
          = get_geopy_distance geo (points.head h) (points.getLast h) units := by
  constructor
  · intro hlen
    match points, hlen with
    | [], _ => rfl
    | [p], _ =>
        simp [closing_distance, List.getLastI, get_geopy_distance, hzero]
  · intro h
    match points, h with
    | p :: rest, h =>
        simp only [closing_distance, List.length_cons, List.head_cons]
        rw [if_pos (Nat.succ_pos _)]
        congr 1
        rw [List.getLastI_eq_getLast?, List.getLast?_eq_getLast (p :: rest) h,
          Option.iget_some]

/-- C3 witness: concrete evaluation for a one-point segment and a
three-point segment. -/
theorem closing_distance_correct_witness :
    closing_distance geoTaxi [pt2] distance_units = 0
    ∧ closing_distance geoTaxi [pt1, pt2, pt3] distance_units
        = get_geopy_distance geoTaxi pt1 pt3 distance_units :=
  ⟨(closing_distance_correct geoTaxi distance_units
      (geoTaxi_refl distance_units) [pt2]).1 (by decide),
   (closing_distance_correct geoTaxi distance_units
      (geoTaxi_refl distance_units) [pt1, pt2, pt3]).2 (by decide)⟩

/-- C8: for a segment with at least 2 points, reversing the entire point
sequence leaves the closing distance unchanged, given that the geodesic
distance is symmetric in its two coordinate-pair arguments. -/
theorem closing_distance_reverse (geo : Geo) (units : String)
    (hsym : ∀ a b : ℚ × ℚ, geo units a b = geo units b a)
    (points : List GPXTrackPoint) (hlen : 2 ≤ points.length) :
    closing_distance geo points.reverse units
      = closing_distance geo points units := by
  have h0 : 0 < points.length := lt_of_lt_of_le (by norm_num) hlen
  simp only [closing_distance, List.length_reverse, if_pos h0]
  rw [headI_reverse, getLastI_reverse]
  exact hsym _ _

/-- C8 witness: concrete evaluation on a three-point segment. -/
theorem closing_distance_reverse_witness :
    closing_distance geoTaxi ([pt1, pt2, pt3].reverse) distance_units
      = closing_distance geoTaxi [pt1, pt2, pt3] distance_units :=
  closing_distance_reverse geoTaxi distance_units (geoTaxi_symm distance_units)
    [pt1, pt2, pt3] (by decide)

/-- C9: the cumulative geodesic distance is invariant under reversal of the
entire point sequence, given that the geodesic distance is symmetric in its
two coordinate-pair arguments. -/
theorem cumulative_distance_reverse (geo : Geo) (units : String)
    (hsym : ∀ a b : ℚ × ℚ, geo units a b = geo units b a)
    (points : List GPXTrackPoint) :
    geopy_sequence_distance geo points.reverse units
      = geopy_sequence_distance geo points units := by
  rw [geopy_sequence_eq_pair_sum, geopy_sequence_eq_pair_sum, List.map_reverse,
    pair_sum_reverse geo units hsym]

/-- C9 witness: concrete evaluation on a three-point segment. -/
theorem cumulative_distance_reverse_witness :
    geopy_sequence_distance geoTaxi ([pt1, pt2, pt3].reverse) distance_units
      = geopy_sequence_distance geoTaxi [pt1, pt2, pt3] distance_units :=
  cumulative_distance_reverse geoTaxi distance_units
    (geoTaxi_symm distance_units) [pt1, pt2, pt3]

/-! Helper lemmas for the `Except` monad and error propagation through
`mapM`. -/

theorem except_pure {ε α : Type} (a : α) : (pure a : Except ε α) = Except.ok a :=
  rfl

theorem except_bind_ok {ε α β : Type} (a : α) (f : α → Except ε β) :
    (Except.ok a >>= f : Except ε β) = f a := rfl

theorem except_bind_error {ε α β : Type} (e : ε) (f : α → Except ε β) :
    (Except.error e >>= f : Except ε β) = Except.error e := rfl

theorem except_map_error {ε α β : Type} (f : α → β) (e : ε) :
    (Except.error e : Except ε α).map f = Except.error e := rfl

theorem except_map_ok {ε α β : Type} (f : α → β) (a : α) :
    (Except.ok a : Except ε α).map f = Except.ok (f a) := rfl

theorem mapM_error_eq {α β : Type} (f : α → Except StatsError β)
    (e₀ : StatsError) (hconst : ∀ x e, f x = .error e → e = e₀) :
    ∀ (xs : List α) (e : StatsError), xs.mapM f = .error e → e = e₀ := by
  intro xs
  induction xs with
  | nil =>
      intro e h
      rw [List.mapM_nil, except_pure] at h
      exact Except.noConfusion h
  | cons y ys ih =>
      intro e h
      rw [List.mapM_cons] at h
      cases hy : f y with
      | error e' =>
          rw [hy, except_bind_error] at h
          injection h with h2
          exact h2 ▸ hconst y e' hy
      | ok b =>
          rw [hy, except_bind_ok] at h
          cases hys : ys.mapM f with
          | error e'' =>
              rw [hys, except_bind_error] at h
              injection h with h2
              exact h2 ▸ ih e'' hys
          | ok bs =>
              rw [hys, except_bind_ok, except_pure] at h
              exact Except.noConfusion h

theorem mapM_error_of_mem {α β : Type} (f : α → Except StatsError β)
    (e₀ : StatsError) (hconst : ∀ x e, f x = .error e → e = e₀) :
    ∀ (xs : List α) (x : α), x ∈ xs → (∃ e, f x = .error e) →
      xs.mapM f = .error e₀ := by
  intro xs
  induction xs with
  | nil => intro x hx; exact absurd hx (List.not_mem_nil x)
  | cons y ys ih =>
      rintro x hx ⟨e, he⟩
      rw [List.mapM_cons]
      cases hy : f y with
      | error e' => rw [except_bind_error, hconst y e' hy]
      | ok b =>
          rw [except_bind_ok]
          have hxys : x ∈ ys := by
            cases List.mem_cons.mp hx with
            | inl hxy =>
                rw [hxy, hy] at he
                exact Except.noConfusion he
            | inr h => exact h
          rw [ih x hxys ⟨e, he⟩, except_bind_error]

theorem parse_field_error_eq (pyfloat : String → Option ℚ) (field : String) :
    ∀ (cell : String) (e : StatsError),
      parse_field pyfloat field cell = .error e →
      e = StatsError.dataIntegrity field := by
  intro cell e h
  unfold parse_field at h
  cases hx : pyfloat cell with
  | none => rw [hx] at h; injection h with h2; exact h2.symm
  | some v => rw [hx] at h; exact Except.noConfusion h

theorem display_stats_aborts (pyfloat : String → Option ℚ)
    (results : List CSVRow) (row : CSVRow) (hrow : row ∈ results)
    (hbad : pyfloat row.geoPyDistanceCell = none
            ∨ pyfloat row.gpx3dMinusGeoPyCell = none) :
    display_stats pyfloat results
        = .error (.dataIntegrity "GeoPy distance")
    ∨ display_stats pyfloat results
        = .error (.dataIntegrity "GPX 3d - GeoPy") := by
  have hconst1 := fun x =>
    parse_field_error_eq pyfloat "GeoPy distance" (CSVRow.geoPyDistanceCell x)
  have hconst2 := fun x =>
    parse_field_error_eq pyfloat "GPX 3d - GeoPy" (CSVRow.gpx3dMinusGeoPyCell x)
  cases hbad with
  | inl hbadd =>
      have h1 : (results.mapM fun x =>
          parse_field pyfloat "GeoPy distance" x.geoPyDistanceCell)
          = .error (.dataIntegrity "GeoPy distance") :=
        mapM_error_of_mem _ _ hconst1 results row hrow
          ⟨_, by unfold parse_field; rw [hbadd]⟩
      left
      unfold display_stats
      rw [h1, except_bind_error]
  | inr hbadv =>
      cases h1 : (results.mapM fun x =>
          parse_field pyfloat "GeoPy distance" x.geoPyDistanceCell) with
      | error e =>
          have he := mapM_error_eq _ _ hconst1 results e h1
          left
          unfold display_stats
          rw [h1, except_bind_error, he]
      | ok ds =>
          have h2 : (results.mapM fun x =>
              parse_field pyfloat "GPX 3d - GeoPy" x.gpx3dMinusGeoPyCell)
              = .error (.dataIntegrity "GPX 3d - GeoPy") :=
            mapM_error_of_mem _ _ hconst2 results row hrow
              ⟨_, by unfold parse_field; rw [hbadv]⟩
          right
          unfold display_stats
          rw [h1, except_bind_ok, h2, except_bind_error]

/-- C5: computing the mean distance over an empty record collection fails
with the empty-input error, and computing the delta standard deviation over
exactly one record fails with the insufficient-data error (sample standard
deviation, n−1 denominator, needs at least 2 records). -/
theorem stats_arity_errors (pyfloat : String → Option ℚ) (row : CSVRow)
    (d v : ℚ) (hd : pyfloat row.geoPyDistanceCell = some d)
    (hv : pyfloat row.gpx3dMinusGeoPyCell = some v) :
    display_stats pyfloat [] = .error .emptyInput
    ∧ display_stats pyfloat [row] = .error .insufficientData
    ∧ stats_mean [] = .error .emptyInput
    ∧ stats_stdev [v] = .error .insufficientData := by
  refine ⟨rfl, ?_, rfl, ?_⟩
  · have hroute : ([row].mapM fun x =>
        parse_field pyfloat "GeoPy distance" x.geoPyDistanceCell)
        = Except.ok [d] := by
      rw [List.mapM_cons, List.mapM_nil]
      unfold parse_field
      rw [hd]
      rfl
    have hdelta : ([row].mapM fun x =>
        parse_field pyfloat "GPX 3d - GeoPy" x.gpx3dMinusGeoPyCell)
        = Except.ok [v] := by
      rw [List.mapM_cons, List.mapM_nil]
      unfold parse_field
      rw [hv]
      rfl
    unfold display_stats
    rw [hroute, except_bind_ok, hdelta, except_bind_ok]
    rfl
  · simp [stats_stdev, stats_variance, except_map_error]

/-- C5 witness: the errors at the concrete empty and one-record stores. -/
theorem stats_arity_errors_witness :
    display_stats pyfloat0 [] = .error .emptyInput
    ∧ display_stats pyfloat0 [csvrow0] = .error .insufficientData
    ∧ stats_mean [] = .error .emptyInput
    ∧ stats_stdev [1] = .error .insufficientData :=
  stats_arity_errors pyfloat0 csvrow0 1 1 (by decide) (by decide)

/-- C6: if the configured distance-unit name is not among the units the
geodesic distance collaborator supports, the run fails with the
unknown-units configuration error, and the outcome does not depend on the
input files — none is read, no record is processed. -/
theorem unknown_units_fail_fast (supported : List String) (units : String)
    (geo : Geo) (prior : List (List String)) (files : List GPXFile)
    (hunits : units ∉ supported) :
    run_extractor supported units geo prior files
        = .error (.unknownDistanceUnits units)
    ∧ ∀ files' : List GPXFile,
        run_extractor supported units geo prior files
          = run_extractor supported units geo prior files' := by
  have hc : check_units supported units = .error (.unknownDistanceUnits units) := by
    unfold check_units
    rw [if_neg]
    simp [List.contains, List.elem_eq_mem, hunits]
  constructor
  · unfold run_extractor
    rw [hc]
    rfl
  · intro files'
    unfold run_extractor
    rw [hc]
    rfl

/-- C6 witness: the configuration failure on the unit name "furlongs", with
its independence from the input file list. -/
theorem unknown_units_fail_fast_witness :
    run_extractor supported0 "furlongs" geo0 [] [file1]
        = .error (.unknownDistanceUnits "furlongs")
    ∧ run_extractor supported0 "furlongs" geo0 [] [file1]
        = run_extractor supported0 "furlongs" geo0 [] [] :=
  ⟨(unknown_units_fail_fast supported0 "furlongs" geo0 [] [file1] (by decide)).1,
   (unknown_units_fail_fast supported0 "furlongs" geo0 [] [file1] (by decide)).2 []⟩

/-- C7: if any persisted record's distance or delta field is unparseable,
the whole summary computation aborts with a data-integrity error (for one of
the two numeric fields); no partial aggregate is produced. -/
theorem stats_unparseable_aborts (pyfloat : String → Option ℚ)
    (results : List CSVRow) (row : CSVRow) (hrow : row ∈ results)
    (hbad : pyfloat row.geoPyDistanceCell = none
            ∨ pyfloat row.gpx3dMinusGeoPyCell = none) :
    display_stats pyfloat results
        = .error (.dataIntegrity "GeoPy distance")
    ∨ display_stats pyfloat results
        = .error (.dataIntegrity "GPX 3d - GeoPy") :=
  display_stats_aborts pyfloat results row hrow hbad

/-- C7 witness: the abort on a concrete store whose first record carries the
unparseable distance cell "??". -/
theorem stats_unparseable_aborts_witness :
    display_stats pyfloat0 [csvrowBad, csvrow0]
        = .error (.dataIntegrity "GeoPy distance")
    ∨ display_stats pyfloat0 [csvrowBad, csvrow0]
        = .error (.dataIntegrity "GPX 3d - GeoPy") :=
  stats_unparseable_aborts pyfloat0 [csvrowBad, csvrow0] csvrowBad
    (List.mem_cons_self _ _) (Or.inl (by decide))

/-- C4 counterexample: the extractor writes the Track name cell of a track
with no name as the empty string, not as the two-character placeholder
"??". -/
theorem unnamed_track_cell_empty_not_placeholder :
    (write_row row0).head? = some "" ∧ row0.trackName = none
    ∧ ("" : String) ≠ "??" := by
  refine ⟨rfl, rfl, by decide⟩

/-- C4 (amended): the "??" placeholder is written only for fieldnames absent
from a row dict, and every extractor row dict carries all eight fieldnames,
so its cells never come from the placeholder; a track with no name has its
Track name cell written as the empty string; and an unparseable "??" in a
numeric field aborts the statistics computation instead of entering any
numeric aggregate. -/
theorem missing_value_placeholder (r : RowData) :
    dict_to_list (row_dict r) = (row_dict r).map Prod.snd
    ∧ (r.trackName = none → (write_row r).head? = some "")
    ∧ (∀ (pyfloat : String → Option ℚ) (results : List CSVRow) (row : CSVRow),
        pyfloat "??" = none → row ∈ results →
        row.geoPyDistanceCell = "??" ∨ row.gpx3dMinusGeoPyCell = "??" →
        display_stats pyfloat results
            = .error (.dataIntegrity "GeoPy distance")
        ∨ display_stats pyfloat results
            = .error (.dataIntegrity "GPX 3d - GeoPy")) := by
  refine ⟨rfl, ?_, ?_⟩
  · intro h
    simp [write_row, dict_to_list, row_dict, fieldnames, render_cell, h]
  · intro pyfloat results row hqq hrow hbad
    refine display_stats_aborts pyfloat results row hrow ?_
    cases hbad with
    | inl h => exact Or.inl (h ▸ hqq)
    | inr h => exact Or.inr (h ▸ hqq)

/-- C4 amended-claim witness: concrete evaluations of the unnamed-track cell
and of the abort on a store containing the placeholder in a numeric cell. -/
theorem missing_value_placeholder_witness :
    (write_row row0).head? = some ""
    ∧ (display_stats pyfloat0 [csvrowBad]
          = .error (.dataIntegrity "GeoPy distance")
       ∨ display_stats pyfloat0 [csvrowBad]
          = .error (.dataIntegrity "GPX 3d - GeoPy")) :=
  ⟨(missing_value_placeholder row0).2.1 rfl,
   (missing_value_placeholder row0).2.2 pyfloat0 [csvrowBad] csvrowBad
     (by decide) (List.mem_cons_self _ _) (Or.inl rfl)⟩

/-- C10: `generate_csv` opens the output path in overwrite mode, so the
resulting store is exactly the header row followed by the rows of this run,
whatever the prior contents were — they are discarded, never appended to. -/
theorem generate_csv_overwrites (geo : Geo) (prior prior' : List (List String))
    (files : List GPXFile) (units : String) :
    generate_csv geo prior files units
        = fieldnames :: (generate_rows geo files units).map write_row
    ∧ generate_csv geo prior files units
        = generate_csv geo prior' files units :=
  ⟨rfl, rfl⟩

end Parse
